import Mathlib

/-! Verification of the QA-dashboard data pipeline
(`streamlit_qa_dashboard_course_development_starter_app.py`).

The pipeline is embedded shallowly:

* a raw (just-uploaded) table is a list of named columns of cells;
* `loadData` models `load_data`: `pd.read_csv(..., parse_dates=[...])`
  followed by column-name normalization and category coercion;
* `exampleData` models `example_data`: the seeded synthetic generator
  plus the derived columns `sla_days`, `age_days`, `sla_breached`;
* the sidebar filter block, the free-text search and the six aggregate
  computations are modelled over a typed row structure `Issue`.

Timestamps are modelled at minute resolution as `Int` (minutes since an
epoch); `pandas` timedelta `.days` is floor division by 1440, which for
the positive divisor is `Int.ediv`, the `/` of `Int` in Lean.
-/

namespace QA

/-! Character/string helpers (kernel-computable stand-ins for
`str.strip().lower()` and string splitting) -/

/-- ASCII lower-casing of one character (model of `str.lower` for the
ASCII column names the app manipulates). -/
def lowerChar (c : Char) : Char :=
  if 65 ≤ c.toNat ∧ c.toNat ≤ 90 then Char.ofNat (c.toNat + 32) else c

/-- `s.lower()`. -/
def strLower (s : String) : String := String.mk (s.data.map lowerChar)

/-- Strip leading and trailing whitespace from a character list. -/
def trimChars (l : List Char) : List Char :=
  ((l.dropWhile Char.isWhitespace).reverse.dropWhile Char.isWhitespace).reverse

/-- `s.strip()`. -/
def strTrim (s : String) : String := String.mk (trimChars s.data)

/-- `c.strip().lower()`: the column-name normalization of `load_data`. -/
def normName (s : String) : String := strLower (strTrim s)

/-- Split a character list on a separator character. -/
def splitOnChar (sep : Char) : List Char → List (List Char)
  | [] => [[]]
  | c :: cs =>
    let r := splitOnChar sep cs
    if c == sep then [] :: r
    else
      match r with
      | [] => [[c]]
      | h :: t => (c :: h) :: t

/-- Parse a nonempty all-digit character list as a natural number. -/
def digitsToNat (l : List Char) : Option Nat :=
  if l ≠ [] ∧ l.all Char.isDigit then
    some (l.foldl (fun a c => 10 * a + (c.toNat - 48)) 0)
  else none

/-! Timestamps -/

/-- Days since 1970-01-01 of the civil date `y-m-d` (standard
days-from-civil algorithm, valid for the CE years the parser accepts). -/
def daysFromCivil (y m d : Nat) : Int :=
  let yAdj := if m ≤ 2 then y - 1 else y
  let era := yAdj / 400
  let yoe := yAdj - era * 400
  let mp := (m + 9) % 12
  let doy := (153 * mp + 2) / 5 + d - 1
  let doe := yoe * 365 + yoe / 4 - yoe / 100 + doy
  (era * 146097 + doe : Int) - 719468

/-- Model of the `pandas` timestamp parser used by
`read_csv(parse_dates=...)`, restricted to ISO `YYYY-MM-DD` dates at day
resolution (lenient about month lengths); the result is in minutes.  The
claims under verification depend only on some strings parsing and others
not, never on the exact value parsed. -/
def parseTimestamp (s : String) : Option Int :=
  match (splitOnChar (Char.ofNat 45) s.data).map digitsToNat with
  | [some y, some m, some d] =>
    if 1 ≤ y ∧ 1 ≤ m ∧ m ≤ 12 ∧ 1 ≤ d ∧ d ≤ 31 then
      some (1440 * daysFromCivil y m d)
    else none
  | _ => none

/-! Raw tables and `load_data` -/

/-- One cell of a raw table: CSV uploads contain strings, which
`parse_dates` may convert to timestamps; the derived demo table also
holds integer and boolean cells. -/
inductive Cell where
  | str (s : String)
  | ts (t : Int)
  | intv (n : Int)
  | boolv (b : Bool)
deriving DecidableEq, Repr, Inhabited

/-- A raw table: named columns of cells (the header plus column data). -/
structure RawTable where
  cols : List (String × List Cell)
deriving DecidableEq, Repr, Inhabited

/-- The columns `read_csv` is asked to parse as dates
(`parse_dates=["created_at", "updated_at"]` in `load_data`). -/
def parseDatesCols : List String := ["created_at", "updated_at"]

/-- Parse one cell as a timestamp, if possible. -/
def parseCell (c : Cell) : Option Cell :=
  match c with
  | .str s => (parseTimestamp s).map .ts
  | .ts t => some (.ts t)
  | _ => none

/-- `pandas` behaviour for a `parse_dates` column: if every value
parses, the column becomes timestamps; any unparseable value leaves the
whole column as it was (no error is raised). -/
def parseDatesColumn (vs : List Cell) : List Cell :=
  match vs.mapM parseCell with
  | some parsed => parsed
  | none => vs

/-- `pd.read_csv(file, parse_dates=["created_at", "updated_at"])`
restricted to what the claims need: each name listed in `parse_dates`
must be present in the (un-normalized) header — `pandas` raises a
`ValueError` otherwise — and each such column is converted to
timestamps when all of its values parse. -/
def readCsv (t : RawTable) : Except String RawTable :=
  if parseDatesCols.all (fun n => (t.cols.lookup n).isSome) then
    .ok { cols := t.cols.map (fun c =>
            if parseDatesCols.contains c.1 then (c.1, parseDatesColumn c.2) else c) }
  else .error "Missing column provided to parse_dates"

/-- `load_data` on an uploaded file: `read_csv` with date parsing, then
column names are stripped and lower-cased, then the columns in
`cat_cols` that are present are tagged as categorical.  The categorical
coercion changes the dtype, never a value, so it is the identity on
this representation; the typed layer below carries category lists
explicitly where they matter. -/
def loadData (t : RawTable) : Except String RawTable :=
  match readCsv t with
  | .ok t1 => .ok { cols := t1.cols.map (fun c => (normName c.1, c.2)) }
  | .error e => .error e

/-! The synthetic generator `example_data` -/

/-- Deterministic pseudo-random generator state.  The source uses
`np.random.default_rng(42)` (PCG64); what the claims depend on is only
that it is a pure seeded state-transition function, which this concrete
64-bit LCG models with the same interface (state in, state and draw
out). -/
def rngNext (s : Nat) : Nat × Nat :=
  let s2 := (6364136223846793005 * s + 1442695040888963407) % 18446744073709551616
  (s2, s2 / 4294967296)

/-- The seed fixed in the source: `np.random.default_rng(42)`. -/
def rngSeed : Nat := 42

/-- `rng.choice(xs)`: a draw selects one element of the list (the
weights `p=...` shape the distribution only, which no claim depends
on). -/
def choose (xs : List String) (r : Nat) : String :=
  xs.getD (r % xs.length) ""

/-- The fixed ordered status categories (line 34 of the source). -/
def statusOrder : List String := ["Open", "In Progress", "Fixed", "Verified", "Closed"]

/-- The severity values (line 35). -/
def severities : List String := ["Low", "Medium", "High", "Critical"]

/-- `units` (line 32). -/
def unitNames : List String := (List.range 8).map (fun i => s!"Unit {i+1}")

/-- `item_types` (line 33). -/
def itemTypes : List String := ["Video", "Quiz", "Reading", "Assignment", "Slide"]

/-- `reporter` choices (line 50). -/
def reporters : List String := ["QA", "Author", "Reviewer", "Student"]

/-- `assignee` choices (line 51). -/
def assignees : List String := ["Alex", "Sam", "Riley", "Jordan", "Kim"]

/-- `notes` choices (line 54). -/
def noteChoices : List String :=
  ["typo", "broken link", "layout", "audio", "timing", "grading", "accessibility"]

/-- `browser` choices (line 55). -/
def browsers : List String := ["Chrome", "Safari", "Firefox", "Edge"]

/-- `environment` choices (line 56). -/
def environments : List String := ["Staging", "Production"]

/-- One row as built inside the generator loop (lines 42-57): the
fourteen input columns, before the derived columns are added. -/
structure RawIssue where
  issue_id : String
  course_name : String
  unit : String
  item_id : String
  item_type : String
  status : String
  severity : String
  reporter : String
  assignee : String
  created_at : Int
  updated_at : Int
  notes : String
  browser : String
  environment : String
deriving DecidableEq, Repr, Inhabited

/-- One fully derived row: the fourteen input columns plus `sla_days`,
`age_days` and `sla_breached` (lines 61-64). -/
structure Issue where
  issue_id : String
  course_name : String
  unit : String
  item_id : String
  item_type : String
  status : String
  severity : String
  reporter : String
  assignee : String
  created_at : Int
  updated_at : Int
  notes : String
  browser : String
  environment : String
  sla_days : Int
  age_days : Int
  sla_breached : Bool
deriving DecidableEq, Repr, Inhabited

/-- `sla_map = {"Critical":2, "High":5, "Medium":10, "Low":15}` (line 61). -/
def sla_map : List (String × Int) :=
  [("Critical", 2), ("High", 5), ("Medium", 10), ("Low", 15)]

/-- Lines 61-64: add `sla_days` (severity mapped through `sla_map`;
unmapped severities give `NaN` in `pandas` and never occur for
generated rows, here totalized with 0), `age_days`
(`(pd.Timestamp.today() - created_at).dt.days`, i.e. floor division of
the minute difference by 1440) and `sla_breached = age_days > sla_days`. -/
def derive (now : Int) (r : RawIssue) : Issue :=
  let sla := (sla_map.lookup r.severity).getD 0
  let age := (now - r.created_at) / 1440
  { issue_id := r.issue_id, course_name := r.course_name, unit := r.unit,
    item_id := r.item_id, item_type := r.item_type, status := r.status,
    severity := r.severity, reporter := r.reporter, assignee := r.assignee,
    created_at := r.created_at, updated_at := r.updated_at, notes := r.notes,
    browser := r.browser, environment := r.environment,
    sla_days := sla, age_days := age, sla_breached := decide (sla < age) }

/-- The body of the generator loop (lines 38-57) for index `i`: the
thirteen draws in source order (created offset, updated offset, status,
course, unit, item number, item type, severity, reporter, assignee,
notes, browser, environment), threading the generator state. -/
def mkRawIssue (today : Int) (courses : List String) (i : Nat) (s0 : Nat) :
    RawIssue × Nat :=
  let p1 := rngNext s0
  let created := today - 1440 * ((p1.2 % 40 : Nat) : Int)
  let p2 := rngNext p1.1
  let updated := created + 1440 * ((p2.2 % 15 : Nat) : Int)
  let p3 := rngNext p2.1
  let status := choose statusOrder p3.2
  let p4 := rngNext p3.1
  let course := choose courses p4.2
  let p5 := rngNext p4.1
  let unit := choose unitNames p5.2
  let p6 := rngNext p5.1
  let itemNum := 1 + p6.2 % 9998
  let p7 := rngNext p6.1
  let itype := choose itemTypes p7.2
  let p8 := rngNext p7.1
  let sev := choose severities p8.2
  let p9 := rngNext p8.1
  let rep := choose reporters p9.2
  let p10 := rngNext p9.1
  let asg := choose assignees p10.2
  let p11 := rngNext p10.1
  let note := choose noteChoices p11.2
  let p12 := rngNext p11.1
  let brow := choose browsers p12.2
  let p13 := rngNext p12.1
  let env := choose environments p13.2
  ({ issue_id := s!"ISSUE-{1000+i}", course_name := course, unit := unit,
     item_id := s!"ITEM-{itemNum}", item_type := itype, status := status,
     severity := sev, reporter := rep, assignee := asg,
     created_at := created, updated_at := updated, notes := note,
     browser := brow, environment := env }, p13.1)

/-- The generator loop: build `k` rows starting at index `i` with
generator state `s`. -/
def genRows (today : Int) (courses : List String) (i s : Nat) : Nat → List RawIssue
  | 0 => []
  | k + 1 =>
    let p := mkRawIssue today courses i s
    p.1 :: genRows today courses (i + 1) p.2 k

/-- `example_data(n_courses, n_rows)` (lines 27-65).  `now` is the
wall-clock time (`pd.Timestamp.today()`) in minutes; `today` is its
normalization to midnight.  The function seeds the generator with the
fixed seed, builds the raw rows, and appends the derived columns. -/
def exampleData (now : Int) (n_courses : Nat := 3) (n_rows : Nat := 250) :
    List Issue :=
  let today := 1440 * (now / 1440)
  let courses := (List.range n_courses).map (fun i => s!"Course {i+1}")
  (genRows today courses 0 rngSeed n_rows).map (derive now)

/-! Filters (lines 80-85) -/

/-- The five sidebar multiselect selections; an empty list is an empty
selection (`if course:` is false for an empty Python list). -/
structure Filters where
  course : List String
  unit : List String
  status : List String
  severity : List String
  assignee : List String
deriving DecidableEq, Repr, Inhabited

/-- One conditional filter step: `if sel: fdf = fdf[fdf[col].isin(sel)]`. -/
def condFilter (sel : List String) (key : Issue → String) (l : List Issue) :
    List Issue :=
  if sel.isEmpty then l else l.filter (fun r => sel.contains (key r))

/-- Lines 80-85: `fdf = df.copy()` then the five conditional
membership filters in source order. -/
def applyFilters (f : Filters) (df : List Issue) : List Issue :=
  let fdf := df
  let fdf := condFilter f.course (fun r => r.course_name) fdf
  let fdf := condFilter f.unit (fun r => r.unit) fdf
  let fdf := condFilter f.status (fun r => r.status) fdf
  let fdf := condFilter f.severity (fun r => r.severity) fdf
  condFilter f.assignee (fun r => r.assignee) fdf

/-! Free-text search (lines 168-177) -/

/-- Is `pre` a prefix of `l`? -/
def startsWithChars : List Char → List Char → Bool
  | [], _ => true
  | _ :: _, [] => false
  | a :: as, b :: bs => a == b && startsWithChars as bs

/-- Substring containment on character lists (`q_lower in s`). -/
def containsChars (needle : List Char) : List Char → Bool
  | [] => startsWithChars needle []
  | c :: t => startsWithChars needle (c :: t) || containsChars needle t

/-- Case-insensitive containment of `q` in `s` as in the detail
explorer: `q.lower() in str(s).lower()`. -/
def containsCI (q s : String) : Bool :=
  containsChars (strLower q).data (strLower s).data

/-- Lines 170-177: `temp = fdf.copy()`, and when the query is nonempty
(`if q:`) keep the rows where the lowered query is contained in
`issue_id`, `notes` or `item_id`. -/
def textSearch (q : String) (fdf : List Issue) : List Issue :=
  if q = "" then fdf
  else fdf.filter (fun r =>
    containsCI q r.issue_id || containsCI q r.notes || containsCI q r.item_id)

/-! Aggregations (lines 90-156)

The aggregates are parametric in the category lists carried by the
categorical dtypes of the underlying frame (`status`, `severity`,
`course_name`): for the demo table `status` carries the five ordered
statuses and the other categoricals carry the observed values; for an
uploaded table every categorical carries exactly the observed values. -/

/-- `open_mask`: `fdf["status"].isin(["Open", "In Progress"])` (line 90). -/
def openMask (r : Issue) : Bool :=
  r.status == "Open" || r.status == "In Progress"

/-- `open_issues` (line 91). -/
def open_issues (fdf : List Issue) : Nat := fdf.countP openMask

/-- `verified` (line 92). -/
def verifiedCount (fdf : List Issue) : Nat :=
  fdf.countP (fun r => r.status == "Verified")

/-- `closed` (line 93). -/
def closedCount (fdf : List Issue) : Nat :=
  fdf.countP (fun r => r.status == "Closed")

/-- `critical_open` (line 94). -/
def critical_open (fdf : List Issue) : Nat :=
  fdf.countP (fun r => r.severity == "Critical" && openMask r)

/-- `sla_breaches` (line 103). -/
def slaBreachCount (fdf : List Issue) : Nat :=
  fdf.countP (fun r => r.sla_breached && openMask r)

/-- `sla_by_sev` (line 106): `fdf[open_mask].groupby("severity")
["sla_breached"].mean()`.  Grouping a categorical with
`observed=False` (the contemporary default) yields one group per
category; the mean of an empty group is `NaN`, modelled as `none`.
The `*100`/rounding into `breach_rate` (line 107) is scalar
post-processing for the chart and is not modelled. -/
def sla_by_sev (sevCats : List String) (fdf : List Issue) :
    List (String × Option ℚ) :=
  sevCats.map (fun s =>
    let g := (fdf.filter openMask).filter (fun r => r.severity == s)
    (s, if g.length = 0 then none
        else some ((g.countP (fun r => r.sla_breached) : ℚ) / (g.length : ℚ))))

/-- Insertion into an ascending list of day numbers. -/
def insAsc (x : Int) : List Int → List Int
  | [] => [x]
  | y :: ys => if x ≤ y then x :: y :: ys else y :: insAsc x ys

/-- Ascending insertion sort (the order `groupby` sorts its keys in). -/
def sortAsc (l : List Int) : List Int := l.foldr insAsc []

/-- `created_daily` (lines 121-124): group by the calendar date of
`created_at` (its day number) and count; `groupby` sorts the group
keys ascendingly and synthesizes no missing date. -/
def created_daily (fdf : List Issue) : List (Int × Nat) :=
  let dates := sortAsc ((fdf.map (fun r => r.created_at / 1440)).dedup)
  dates.map (fun d => (d, fdf.countP (fun r => r.created_at / 1440 == d)))

/-- Stable insertion of a labelled count into a list sorted by
descending count (ties keep existing elements first). -/
def insDesc (x : String × Nat) : List (String × Nat) → List (String × Nat)
  | [] => [x]
  | y :: ys => if y.2 ≤ x.2 then x :: y :: ys else y :: insDesc x ys

/-- Stable sort by descending count, as `value_counts` sorts its
result (`sort_values(ascending=False)`; tie order modelled as stable). -/
def sortDesc (l : List (String × Nat)) : List (String × Nat) :=
  l.foldr insDesc []

/-- `status_counts` (line 131): `value_counts` on a categorical column
counts every category of the dtype — zero counts included — and sorts
by descending count. -/
def status_counts (cats : List String) (fdf : List Issue) :
    List (String × Nat) :=
  sortDesc (cats.map (fun c => (c, (fdf.filter (fun r => r.status == c)).length)))

/-- `sev_course` (line 140): `fdf.groupby(["course_name","severity"])
.size().reset_index(name="count")`.  With categorical group keys and
`observed=False` the result has one row per category pair, zero sizes
included, sorted by the group keys in category order. -/
def sev_course (courseCats sevCats : List String) (fdf : List Issue) :
    List ((String × String) × Nat) :=
  (courseCats.map (fun c => sevCats.map (fun s =>
    ((c, s), (fdf.filter (fun r => r.course_name == c && r.severity == s)).length)))).flatten

/-- The five age-bucket labels (line 150). -/
def ageLabels : List String := ["≤2d", "3–5d", "6–10d", "11–20d", ">20d"]

/-- `pd.cut(fdf["age_days"], bins=[-1,2,5,10,20,999], labels=...)`
(line 150): half-open intervals, left edge excluded; a value outside
`(-1, 999]` falls in no bin (`NaN`). -/
def ageBucketLabel (a : Int) : Option String :=
  if a ≤ -1 then none
  else if a ≤ 2 then some "≤2d"
  else if a ≤ 5 then some "3–5d"
  else if a ≤ 10 then some "6–10d"
  else if a ≤ 20 then some "11–20d"
  else if a ≤ 999 then some ">20d"
  else none

/-- `age_dist` (lines 151-152): `DataFrame.value_counts` over the
bucket column counts every bucket label of the categorical produced by
`cut` — zero counts included — drops the unbinned (`NaN`) rows, and
sorts by descending count; the subsequent `rename(columns={"index":"",
0:"count"})` refers to columns that do not exist after
`reset_index(name="count")` and is a no-op. -/
def age_dist (fdf : List Issue) : List (String × Nat) :=
  sortDesc (ageLabels.map (fun l =>
    (l, (fdf.filter (fun r => ageBucketLabel r.age_days == some l)).length)))

/-! Raw-layer column access (the dashboard code between lines
90 and 156 reads columns of the loaded frame by name; a missing column
is a `KeyError`) -/

/-- `t[n]`: column lookup, a `KeyError` when absent. -/
def getCol (t : RawTable) (n : String) : Except String (List Cell) :=
  match t.cols.lookup n with
  | some vs => .ok vs
  | none => .error (String.append "KeyError: " n)

/-- Is a status cell in the open mask (`isin(["Open", "In Progress"])`)? -/
def cellOpen (c : Cell) : Bool :=
  c == .str "Open" || c == .str "In Progress"

/-- Line 103 over the loaded frame:
`int((fdf["sla_breached"] & open_mask).sum())` — needs the
`sla_breached` and `status` columns to exist. -/
def slaBreachesAgg (t : RawTable) : Except String Nat :=
  match getCol t "sla_breached" with
  | .error e => .error e
  | .ok sb =>
    match getCol t "status" with
    | .error e => .error e
    | .ok st => .ok ((sb.zip st).countP (fun p => p.1 == Cell.boolv true && cellOpen p.2))

/-! Concrete fixtures used to exercise the definitions -/

/-- A typed row fixture: a row as it would sit in a loaded-and-derived
table, with `sla_days` and `sla_breached` consistent with the
derivation rule. -/
def mkIssue (course st sev : String) (age : Int) : Issue :=
  let sla := (sla_map.lookup sev).getD 0
  { issue_id := "ISSUE-1", course_name := course, unit := "Unit 1",
    item_id := "ITEM-1", item_type := "Video", status := st, severity := sev,
    reporter := "QA", assignee := "Alex", created_at := 0, updated_at := 0,
    notes := "typo", browser := "Chrome", environment := "Staging",
    sla_days := sla, age_days := age, sla_breached := decide (sla < age) }

/-- A filtered table with one `Open` and two `In Progress` rows. -/
def fdfStatus : List Issue :=
  [mkIssue "Course 1" "Open" "Low" 1,
   mkIssue "Course 1" "In Progress" "Low" 1,
   mkIssue "Course 1" "In Progress" "Low" 2]

/-- A filtered table whose two rows share one course and one severity. -/
def fdfOneCourse : List Issue :=
  [mkIssue "Course A" "Open" "Low" 1, mkIssue "Course A" "Open" "Low" 2]

/-- An upload with every required column, parseable dates, and no
`sla_days` column. -/
def uploadMissingSla : RawTable := ⟨[
  ("issue_id", [.str "I-1"]), ("course_name", [.str "Algebra"]),
  ("unit", [.str "U1"]), ("item_id", [.str "IT-1"]), ("item_type", [.str "Video"]),
  ("status", [.str "Open"]), ("severity", [.str "Critical"]),
  ("reporter", [.str "QA"]), ("assignee", [.str "Alex"]),
  ("created_at", [.str "2024-01-05"]), ("updated_at", [.str "2024-01-06"])]⟩

/-- What `load_data` makes of `uploadMissingSla`: both date columns
parsed, names already normalized, and still no `sla_days` (and no
`age_days`/`sla_breached`) column. -/
def uploadMissingSlaLoaded : RawTable := ⟨[
  ("issue_id", [.str "I-1"]), ("course_name", [.str "Algebra"]),
  ("unit", [.str "U1"]), ("item_id", [.str "IT-1"]), ("item_type", [.str "Video"]),
  ("status", [.str "Open"]), ("severity", [.str "Critical"]),
  ("reporter", [.str "QA"]), ("assignee", [.str "Alex"]),
  ("created_at", [.ts 28406880]), ("updated_at", [.ts 28408320])]⟩

/-- A two-row upload that is missing the required `course_name` column
and whose `created_at` column holds one unparseable value. -/
def uploadMissingCourse : RawTable := ⟨[
  ("issue_id", [.str "I-1", .str "I-2"]),
  ("unit", [.str "U1", .str "U2"]),
  ("item_id", [.str "IT-1", .str "IT-2"]),
  ("item_type", [.str "Video", .str "Quiz"]),
  ("status", [.str "Open", .str "Closed"]),
  ("severity", [.str "Critical", .str "Low"]),
  ("reporter", [.str "QA", .str "QA"]),
  ("assignee", [.str "Alex", .str "Sam"]),
  ("created_at", [.str "not-a-date", .str "2024-01-05"]),
  ("updated_at", [.str "2024-01-06", .str "2024-01-07"])]⟩

/-- What `load_data` makes of `uploadMissingCourse`: everything kept —
`course_name` still missing, the `created_at` column left as strings
because one value does not parse, `updated_at` parsed. -/
def uploadMissingCourseLoaded : RawTable := ⟨[
  ("issue_id", [.str "I-1", .str "I-2"]),
  ("unit", [.str "U1", .str "U2"]),
  ("item_id", [.str "IT-1", .str "IT-2"]),
  ("item_type", [.str "Video", .str "Quiz"]),
  ("status", [.str "Open", .str "Closed"]),
  ("severity", [.str "Critical", .str "Low"]),
  ("reporter", [.str "QA", .str "QA"]),
  ("assignee", [.str "Alex", .str "Sam"]),
  ("created_at", [.str "not-a-date", .str "2024-01-05"]),
  ("updated_at", [.ts 28408320, .ts 28409760])]⟩

/-- A loaded table that does carry `status` and `sla_breached` columns
(the shape of the derived demo table). -/
def tinyDerivedTable : RawTable :=
  ⟨[("status", [.str "Open"]), ("sla_breached", [.boolv true])]⟩

/-- A row whose age exceeds the 999-day upper edge of the last
`pd.cut` bin. -/
def veryOldIssue : Issue := mkIssue "Course 1" "Open" "Low" 1000

/-- The empty filter selection (every multiselect left empty). -/
def noFilters : Filters := ⟨[], [], [], [], []⟩

/-- A mixed selection: two fields restricted, three left empty. -/
def sampleFilters : Filters := ⟨["Course 1"], [], ["Open"], [], []⟩

/-! Helper lemmas -/

theorem contains_iff (sel : List String) (s : String) :
    sel.contains s = true ↔ s ∈ sel := by
  simp [List.contains]

theorem condFilter_sublist (sel : List String) (key : Issue → String)
    (l : List Issue) : (condFilter sel key l).Sublist l := by
  unfold condFilter
  by_cases h : sel.isEmpty <;> simp [h, List.filter_sublist]

theorem mem_condFilter {sel : List String} {key : Issue → String}
    {l : List Issue} {r : Issue} (h : r ∈ condFilter sel key l) :
    r ∈ l ∧ (sel ≠ [] → key r ∈ sel) := by
  unfold condFilter at h
  by_cases he : sel.isEmpty
  · rw [if_pos he] at h
    exact ⟨h, fun hne => absurd (List.isEmpty_iff.mp he) hne⟩
  · rw [if_neg he] at h
    have h2 := List.mem_filter.mp h
    exact ⟨h2.1, fun _ => (contains_iff sel (key r)).mp h2.2⟩

theorem applyFilters_sublist (f : Filters) (df : List Issue) :
    (applyFilters f df).Sublist df := by
  unfold applyFilters
  exact ((((condFilter_sublist _ _ _).trans (condFilter_sublist _ _ _)).trans
    (condFilter_sublist _ _ _)).trans (condFilter_sublist _ _ _)).trans
    (condFilter_sublist _ _ _)

theorem textSearch_sublist (q : String) (l : List Issue) :
    (textSearch q l).Sublist l := by
  unfold textSearch
  by_cases h : q = "" <;> simp [h, List.filter_sublist]

/-- One conditional filter step is the pointwise filter by
"selection empty, or value selected". -/
theorem condFilter_eq_filter (sel : List String) (key : Issue → String)
    (l : List Issue) :
    condFilter sel key l = l.filter (fun r => sel.isEmpty || sel.contains (key r)) := by
  unfold condFilter
  rcases h : sel.isEmpty with _ | _
  · rw [if_neg (by simp [h])]
    exact List.filter_congr (fun r _ => by simp [h])
  · rw [if_pos (by simp [h])]
    simp [h]

/-- A value passes a field when the selection is empty or contains it. -/
theorem field_pass (sel : List String) (v : String) (h : sel ≠ [] → v ∈ sel) :
    (sel.isEmpty || sel.contains v) = true := by
  cases sel with
  | nil => rfl
  | cons a t =>
    have hv : v ∈ a :: t := h (by simp)
    simp [List.contains, hv]

theorem derive_breached (now : Int) (a : RawIssue) :
    (derive now a).sla_breached =
      decide ((derive now a).sla_days < (derive now a).age_days) := rfl

/-! Claim theorems -/

/-- Claim C1. For every row of the loaded-and-derived table (the
generator output, which is where the pipeline derives its fields),
`sla_breached` is true iff the `age_days` of that row is strictly greater
than its `sla_days`, for all severities. -/
theorem c1_sla_breached_iff (now : Int) (nCourses nRows : Nat) (r : Issue)
    (h : r ∈ exampleData now nCourses nRows) :
    r.sla_breached = true ↔ r.sla_days < r.age_days := by
  unfold exampleData at h
  obtain ⟨a, _, rfl⟩ := List.mem_map.mp h
  rw [derive_breached]
  exact decide_eq_true_iff

/-- Witness for C1 at a concrete generated row. -/
theorem c1_witness :
    (exampleData 0 3 1).headI ∈ exampleData 0 3 1 ∧
      ((exampleData 0 3 1).headI.sla_breached = true ↔
        (exampleData 0 3 1).headI.sla_days < (exampleData 0 3 1).headI.age_days) :=
  ⟨by decide, c1_sla_breached_iff 0 3 1 (exampleData 0 3 1).headI (by decide)⟩

/-- Claim C2. Applying the sidebar filters returns at most as many rows
as the input; the filter is exactly the pointwise conjunction, over the
five fields, of "selection empty, or value selected" — so the result is
precisely the rows passing every non-empty selection list, ANDed across
fields, and a field whose selection is empty imposes no restriction
even amid non-empty ones. Both directions are stated: every survivor
passes each non-empty selection, and every input row passing all of
them survives; the all-empty selection returns the table unchanged. -/
theorem c2_filter_semantics (f : Filters) (df : List Issue) :
    (applyFilters f df).length ≤ df.length
    ∧ applyFilters f df = df.filter (fun r =>
        (f.course.isEmpty || f.course.contains r.course_name)
        && (f.unit.isEmpty || f.unit.contains r.unit)
        && (f.status.isEmpty || f.status.contains r.status)
        && (f.severity.isEmpty || f.severity.contains r.severity)
        && (f.assignee.isEmpty || f.assignee.contains r.assignee))
    ∧ (∀ r ∈ applyFilters f df,
        (f.course ≠ [] → r.course_name ∈ f.course)
        ∧ (f.unit ≠ [] → r.unit ∈ f.unit)
        ∧ (f.status ≠ [] → r.status ∈ f.status)
        ∧ (f.severity ≠ [] → r.severity ∈ f.severity)
        ∧ (f.assignee ≠ [] → r.assignee ∈ f.assignee))
    ∧ (∀ r ∈ df,
        (f.course ≠ [] → r.course_name ∈ f.course) →
        (f.unit ≠ [] → r.unit ∈ f.unit) →
        (f.status ≠ [] → r.status ∈ f.status) →
        (f.severity ≠ [] → r.severity ∈ f.severity) →
        (f.assignee ≠ [] → r.assignee ∈ f.assignee) →
        r ∈ applyFilters f df)
    ∧ applyFilters noFilters df = df := by
  have hchar : applyFilters f df = df.filter (fun r =>
      (f.course.isEmpty || f.course.contains r.course_name)
      && (f.unit.isEmpty || f.unit.contains r.unit)
      && (f.status.isEmpty || f.status.contains r.status)
      && (f.severity.isEmpty || f.severity.contains r.severity)
      && (f.assignee.isEmpty || f.assignee.contains r.assignee)) := by
    simp only [applyFilters]
    rw [condFilter_eq_filter, condFilter_eq_filter, condFilter_eq_filter,
      condFilter_eq_filter, condFilter_eq_filter]
    rw [List.filter_filter, List.filter_filter, List.filter_filter,
      List.filter_filter]
    refine List.filter_congr ?_
    intro r _
    cases hC : (f.course.isEmpty || f.course.contains r.course_name) <;>
      cases hU : (f.unit.isEmpty || f.unit.contains r.unit) <;>
      cases hS : (f.status.isEmpty || f.status.contains r.status) <;>
      cases hV : (f.severity.isEmpty || f.severity.contains r.severity) <;>
      cases hA : (f.assignee.isEmpty || f.assignee.contains r.assignee) <;>
      simp [hC, hU, hS, hV, hA]
  refine ⟨(applyFilters_sublist f df).length_le, hchar, ?_, ?_, ?_⟩
  · intro r hr
    unfold applyFilters at hr
    have h5 := mem_condFilter hr
    have h4 := mem_condFilter h5.1
    have h3 := mem_condFilter h4.1
    have h2 := mem_condFilter h3.1
    have h1 := mem_condFilter h2.1
    exact ⟨h1.2, h2.2, h3.2, h4.2, h5.2⟩
  · intro r hr h1 h2 h3 h4 h5
    rw [hchar]
    refine List.mem_filter.mpr ⟨hr, ?_⟩
    rw [field_pass f.course r.course_name h1, field_pass f.unit r.unit h2,
      field_pass f.status r.status h3, field_pass f.severity r.severity h4,
      field_pass f.assignee r.assignee h5]
    rfl
  · simp [applyFilters, condFilter, noFilters]

/-- Witness for C2 at a concrete table and a mixed selection (two
fields restricted, three empty). -/
theorem c2_witness :
    (applyFilters sampleFilters fdfStatus).length ≤ fdfStatus.length
    ∧ applyFilters sampleFilters fdfStatus = fdfStatus.filter (fun r =>
        (sampleFilters.course.isEmpty || sampleFilters.course.contains r.course_name)
        && (sampleFilters.unit.isEmpty || sampleFilters.unit.contains r.unit)
        && (sampleFilters.status.isEmpty || sampleFilters.status.contains r.status)
        && (sampleFilters.severity.isEmpty || sampleFilters.severity.contains r.severity)
        && (sampleFilters.assignee.isEmpty || sampleFilters.assignee.contains r.assignee))
    ∧ (∀ r ∈ applyFilters sampleFilters fdfStatus,
        (sampleFilters.course ≠ [] → r.course_name ∈ sampleFilters.course)
        ∧ (sampleFilters.unit ≠ [] → r.unit ∈ sampleFilters.unit)
        ∧ (sampleFilters.status ≠ [] → r.status ∈ sampleFilters.status)
        ∧ (sampleFilters.severity ≠ [] → r.severity ∈ sampleFilters.severity)
        ∧ (sampleFilters.assignee ≠ [] → r.assignee ∈ sampleFilters.assignee))
    ∧ (∀ r ∈ fdfStatus,
        (sampleFilters.course ≠ [] → r.course_name ∈ sampleFilters.course) →
        (sampleFilters.unit ≠ [] → r.unit ∈ sampleFilters.unit) →
        (sampleFilters.status ≠ [] → r.status ∈ sampleFilters.status) →
        (sampleFilters.severity ≠ [] → r.severity ∈ sampleFilters.severity) →
        (sampleFilters.assignee ≠ [] → r.assignee ∈ sampleFilters.assignee) →
        r ∈ applyFilters sampleFilters fdfStatus)
    ∧ applyFilters noFilters fdfStatus = fdfStatus :=
  c2_filter_semantics sampleFilters fdfStatus

/-- Claim C10. For every table, filter selection and free-text query, the
filtered output is a subsequence of the input: surviving rows keep
their relative order, no row is duplicated, and each output row is one
input row with all its column values unchanged. -/
theorem c10_filter_subsequence (f : Filters) (q : String) (df : List Issue) :
    (textSearch q (applyFilters f df)).Sublist df :=
  (textSearch_sublist q (applyFilters f df)).trans (applyFilters_sublist f df)

/-! Sorting and counting helpers -/

theorem insDesc_perm (x : String × Nat) (l : List (String × Nat)) :
    (insDesc x l).Perm (x :: l) := by
  induction l with
  | nil => exact List.Perm.refl _
  | cons y ys ih =>
    unfold insDesc
    by_cases h : y.2 ≤ x.2
    · rw [if_pos h]
    · rw [if_neg h]
      exact (ih.cons y).trans (List.Perm.swap x y ys)

theorem sortDesc_perm (l : List (String × Nat)) : (sortDesc l).Perm l := by
  induction l with
  | nil => exact List.Perm.refl _
  | cons x t ih => exact (insDesc_perm x (sortDesc t)).trans (ih.cons x)

theorem insDesc_pairwise {x : String × Nat} {l : List (String × Nat)}
    (h : l.Pairwise (fun a b => b.2 ≤ a.2)) :
    (insDesc x l).Pairwise (fun a b => b.2 ≤ a.2) := by
  induction l with
  | nil => simp [insDesc]
  | cons y ys ih =>
    rcases List.pairwise_cons.mp h with ⟨hy, hys⟩
    unfold insDesc
    by_cases hc : y.2 ≤ x.2
    · rw [if_pos hc]
      refine List.pairwise_cons.mpr ⟨?_, h⟩
      intro b hb
      rcases List.mem_cons.mp hb with rfl | hb
      · exact hc
      · exact le_trans (hy b hb) hc
    · rw [if_neg hc]
      refine List.pairwise_cons.mpr ⟨?_, ih hys⟩
      intro b hb
      rcases List.mem_cons.mp ((insDesc_perm x ys).mem_iff.mp hb) with rfl | hb
      · omega
      · exact hy b hb

theorem sortDesc_pairwise (l : List (String × Nat)) :
    (sortDesc l).Pairwise (fun a b => b.2 ≤ a.2) := by
  induction l with
  | nil => simp [sortDesc]
  | cons x t ih => exact insDesc_pairwise ih

/-- A member of a sorted labelled-count list built from a count
function carries the value of that function at its label. -/
theorem mem_sortDesc_count {f : String → Nat} {cats : List String}
    {p : String × Nat} (h : p ∈ sortDesc (cats.map (fun c => (c, f c)))) :
    p.2 = f p.1 := by
  obtain ⟨c, _, hp⟩ := List.mem_map.mp ((sortDesc_perm _).mem_iff.mp h)
  cases hp
  rfl

theorem sum_map_add_nat {α : Type} (l : List α) (f g : α → Nat) :
    (l.map (fun a => f a + g a)).sum = (l.map f).sum + (l.map g).sum := by
  induction l with
  | nil => simp
  | cons x t ih => simp [ih]; omega

theorem sum_ite_zero {β : Type} [BEq β] [LawfulBEq β] (cats : List β) (s : β)
    (hs : s ∉ cats) :
    (cats.map (fun c => if s == c then (1 : Nat) else 0)).sum = 0 := by
  induction cats with
  | nil => simp
  | cons c t ih =>
    have hne : s ≠ c := fun h => hs (h ▸ List.mem_cons_self c t)
    have hnt : s ∉ t := fun h => hs (List.mem_cons_of_mem c h)
    simp [beq_iff_eq, hne, ih hnt]

theorem sum_ite_one {β : Type} [BEq β] [LawfulBEq β] (cats : List β) (s : β)
    (hnd : cats.Nodup) (hmem : s ∈ cats) :
    (cats.map (fun c => if s == c then (1 : Nat) else 0)).sum = 1 := by
  induction cats with
  | nil => cases hmem
  | cons c t ih =>
    rcases List.mem_cons.mp hmem with rfl | h
    · have hnt : s ∉ t := (List.nodup_cons.mp hnd).1
      simp [beq_iff_eq, sum_ite_zero t s hnt]
    · have hne : s ≠ c := by
        rintro rfl
        exact (List.nodup_cons.mp hnd).1 h
      simp [beq_iff_eq, hne, ih (List.nodup_cons.mp hnd).2 h]

theorem filter_cons_length {α β : Type} [BEq β] (k : α → β) (x : α)
    (t : List α) (c : β) :
    ((x :: t).filter (fun a => k a == c)).length =
      (if k x == c then 1 else 0) + (t.filter (fun a => k a == c)).length := by
  by_cases h : (k x == c) = true <;> simp [List.filter_cons, h, Nat.add_comm]

/-- Counting a list once per category covers it exactly when the
categories are distinct and the key of every element is a category. -/
theorem partition_sum {α β : Type} [BEq β] [LawfulBEq β] (k : α → β)
    (cats : List β) (l : List α) (hnd : cats.Nodup)
    (hcov : ∀ a ∈ l, k a ∈ cats) :
    (cats.map (fun c => (l.filter (fun a => k a == c)).length)).sum = l.length := by
  induction l with
  | nil => simp
  | cons x t ih =>
    rw [List.map_congr_left (fun c _ => filter_cons_length k x t c)]
    rw [sum_map_add_nat]
    rw [sum_ite_one cats (k x) hnd (hcov x (List.mem_cons_self x t))]
    rw [ih (fun a ha => hcov a (List.mem_cons_of_mem x ha))]
    simp [Nat.add_comm]

/-- Claim C5, counterexample. `value_counts` orders the status
distribution by descending count, not by the fixed status order: on a
table with one `Open` and two `In Progress` rows (status dtype carrying
all five categories), the first entry is `In Progress`, so the output
is not ordered `Open, In Progress, Fixed, Verified, Closed` as the
claim states. -/
theorem c5_counterexample :
    (status_counts statusOrder fdfStatus).map Prod.fst =
      ["In Progress", "Open", "Fixed", "Verified", "Closed"]
    ∧ (status_counts statusOrder fdfStatus).map Prod.fst ≠ statusOrder := by
  decide

/-- Claim C5, amended. The status distribution contains exactly one entry
per category of the categorical dtype of the status column (for the demo
table: all five fixed statuses), zero counts included; the counts sum
to the row count of the filtered table; every entry carries the count of
its status; and the entries are ordered by descending count (the fixed
status order is applied only by the axis sort of the chart). -/
theorem c5_status_distribution (cats : List String) (fdf : List Issue)
    (hnd : cats.Nodup) (hcov : ∀ r ∈ fdf, r.status ∈ cats) :
    ((status_counts cats fdf).map Prod.fst).Perm cats
    ∧ ((status_counts cats fdf).map Prod.snd).sum = fdf.length
    ∧ (status_counts cats fdf).Pairwise (fun a b => b.2 ≤ a.2)
    ∧ ∀ p ∈ status_counts cats fdf,
        p.2 = (fdf.filter (fun r => r.status == p.1)).length := by
  refine ⟨?_, ?_, sortDesc_pairwise _, fun p hp => mem_sortDesc_count hp⟩
  · have h1 := (sortDesc_perm
      (cats.map (fun c => (c, (fdf.filter (fun r => r.status == c)).length)))).map
      Prod.fst
    unfold status_counts
    simpa [List.map_map, Function.comp_def] using h1
  · unfold status_counts
    rw [((sortDesc_perm _).map Prod.snd).sum_eq, List.map_map]
    exact partition_sum (fun r => r.status) cats fdf hnd hcov

/-- Witness for C5 (amended) on a concrete table with the five demo
categories. -/
theorem c5_witness :
    ((status_counts statusOrder fdfStatus).map Prod.fst).Perm statusOrder
    ∧ ((status_counts statusOrder fdfStatus).map Prod.snd).sum = fdfStatus.length
    ∧ (status_counts statusOrder fdfStatus).Pairwise (fun a b => b.2 ≤ a.2)
    ∧ ∀ p ∈ status_counts statusOrder fdfStatus,
        p.2 = (fdfStatus.filter (fun r => r.status == p.1)).length :=
  c5_status_distribution statusOrder fdfStatus (by decide) (by decide)

/-- Any age in `[0, 999]` lands in one of the five bucket labels. -/
theorem ageBucketLabel_mem {a : Int} (h0 : 0 ≤ a) (h9 : a ≤ 999) :
    ageBucketLabel a = some ((ageBucketLabel a).getD "")
    ∧ (ageBucketLabel a).getD "" ∈ ageLabels := by
  unfold ageBucketLabel
  split_ifs <;> first | (exfalso; omega) | simp [ageLabels]

/-- Claim C6, counterexample. The last `pd.cut` bin is `(20, 999]`, not
`(20, ∞)`: a single row 1000 days old is older than 20 days, yet the
`>20d` bucket reports count 0 and the whole histogram counts 0 rows —
the row falls out of every bucket. -/
theorem c6_counterexample :
    veryOldIssue.age_days > 20
    ∧ (age_dist [veryOldIssue]).lookup ">20d" = some 0
    ∧ ((age_dist [veryOldIssue]).map Prod.snd).sum = 0 := by
  decide

/-- Claim C6, amended. The histogram buckets `age_days` into the bins
`(-1,2], (2,5], (5,10], (10,20], (20,999]`; every one of the five
bucket labels appears exactly once with its count (0 when no row falls
in it), and — provided the age of every row lies in `[0, 999]`, the only
ages the bins cover — the bucket counts sum to the row count of the table.
Rows with age outside `(-1, 999]` are silently dropped. -/
theorem c6_age_histogram (fdf : List Issue)
    (h : ∀ r ∈ fdf, 0 ≤ r.age_days ∧ r.age_days ≤ 999) :
    ((age_dist fdf).map Prod.fst).Perm ageLabels
    ∧ (∀ p ∈ age_dist fdf,
        p.2 = (fdf.filter (fun r => ageBucketLabel r.age_days == some p.1)).length)
    ∧ ((age_dist fdf).map Prod.snd).sum = fdf.length := by
  refine ⟨?_, fun p hp => mem_sortDesc_count hp, ?_⟩
  · have h1 := (sortDesc_perm
      (ageLabels.map (fun l =>
        (l, (fdf.filter (fun r => ageBucketLabel r.age_days == some l)).length)))).map
      Prod.fst
    unfold age_dist
    simpa [List.map_map, Function.comp_def] using h1
  · unfold age_dist
    rw [((sortDesc_perm _).map Prod.snd).sum_eq, List.map_map]
    have hrw : ageLabels.map
        ((fun p : String × Nat => p.2) ∘ fun l =>
          (l, (fdf.filter (fun r => ageBucketLabel r.age_days == some l)).length)) =
        (ageLabels.map some).map
          (fun c => (fdf.filter (fun r => ageBucketLabel r.age_days == c)).length) := by
      rw [List.map_map]
      exact List.map_congr_left (fun l _ => rfl)
    rw [hrw]
    refine partition_sum (fun r => ageBucketLabel r.age_days) (ageLabels.map some)
      fdf (List.Nodup.map (Option.some_injective String) (by decide)) ?_
    intro r hr
    obtain ⟨hsome, hmem⟩ := ageBucketLabel_mem (h r hr).1 (h r hr).2
    have : some ((ageBucketLabel r.age_days).getD "") ∈ ageLabels.map some :=
      List.mem_map.mpr ⟨_, hmem, rfl⟩
    rw [← hsome] at this
    exact this

/-- Witness for C6 (amended) on a concrete in-range table. -/
theorem c6_witness :
    ((age_dist fdfStatus).map Prod.fst).Perm ageLabels
    ∧ (∀ p ∈ age_dist fdfStatus,
        p.2 = (fdfStatus.filter (fun r => ageBucketLabel r.age_days == some p.1)).length)
    ∧ ((age_dist fdfStatus).map Prod.snd).sum = fdfStatus.length :=
  c6_age_histogram fdfStatus (by decide)

theorem list_sum_div (l : List ℚ) (d : ℚ) :
    (l.map (fun x => x / d)).sum = l.sum / d := by
  induction l with
  | nil => simp
  | cons x t ih => simp [ih, add_div]

/-- Restricting the grouped (course, severity) sizes to one course of
the (duplicate-free) course categories gives exactly, for that course, its
per-severity block. -/
theorem filter_sev_course (courseCats sevCats : List String) (fdf : List Issue)
    (c : String) (hnd : courseCats.Nodup) (hc : c ∈ courseCats) :
    (sev_course courseCats sevCats fdf).filter (fun e => e.1.1 == c) =
      sevCats.map (fun s =>
        ((c, s), (fdf.filter (fun r => r.course_name == c && r.severity == s)).length)) := by
  induction courseCats with
  | nil => cases hc
  | cons c₀ rest ih =>
    unfold sev_course
    rw [List.map_cons, List.flatten_cons, List.filter_append]
    rcases List.mem_cons.mp hc with rfl | hmem
    · have hblock : (sevCats.map (fun s =>
          ((c, s), (fdf.filter (fun r => r.course_name == c && r.severity == s)).length))).filter
            (fun e => e.1.1 == c) =
          sevCats.map (fun s =>
            ((c, s), (fdf.filter (fun r => r.course_name == c && r.severity == s)).length)) := by
        refine List.filter_eq_self.mpr ?_
        intro e he
        obtain ⟨s, _, rfl⟩ := List.mem_map.mp he
        simp
      have hrest : ((rest.map (fun c2 => sevCats.map (fun s =>
          ((c2, s), (fdf.filter (fun r => r.course_name == c2 && r.severity == s)).length)))).flatten).filter
            (fun e => e.1.1 == c) = [] := by
        refine List.filter_eq_nil_iff.mpr ?_
        intro e he
        obtain ⟨blk, hblk, hin⟩ := List.mem_flatten.mp he
        obtain ⟨c2, hc2, rfl⟩ := List.mem_map.mp hblk
        obtain ⟨s, _, rfl⟩ := List.mem_map.mp hin
        have : c2 ≠ c := by
          rintro rfl
          exact (List.nodup_cons.mp hnd).1 hc2
        simp [this]
      rw [hblock, hrest, List.append_nil]
    · have hne : c₀ ≠ c := by
        rintro rfl
        exact (List.nodup_cons.mp hnd).1 hmem
      have hblock : (sevCats.map (fun s =>
          ((c₀, s), (fdf.filter (fun r => r.course_name == c₀ && r.severity == s)).length))).filter
            (fun e => e.1.1 == c) = [] := by
        refine List.filter_eq_nil_iff.mpr ?_
        intro e he
        obtain ⟨s, _, rfl⟩ := List.mem_map.mp he
        simp [hne]
      rw [hblock, List.nil_append]
      exact ih (List.nodup_cons.mp hnd).2 hmem

/-- Claim C7, counterexample. The severity-mix aggregate holds raw group
sizes, not proportions: on a table whose two rows share one course and
one severity, its single entry carries the value 2 where the claimed
proportion among the rows of that course would be 1. -/
theorem c7_counterexample :
    sev_course ["Course A"] ["Low"] fdfOneCourse = [(("Course A", "Low"), 2)]
    ∧ (2 : ℚ) ≠ 1 := by
  refine ⟨by decide, by norm_num⟩

/-- Claim C7, amended. The aggregate gives, per (course, severity) pair of
the categorical dtypes, the count of matching rows; the proportions the
100%-stacked chart derives from it (count divided by the course
total) sum to exactly 1 for each course category with at least one
row. -/
theorem c7_severity_mix (courseCats sevCats : List String) (fdf : List Issue)
    (c : String) (hcc : courseCats.Nodup) (hc : c ∈ courseCats)
    (hsd : sevCats.Nodup) (hcov : ∀ r ∈ fdf, r.severity ∈ sevCats)
    (hpos : 0 < (fdf.filter (fun r => r.course_name == c)).length) :
    (((sev_course courseCats sevCats fdf).filter (fun e => e.1.1 == c)).map
      (fun e => (e.2 : ℚ) /
        ((fdf.filter (fun r => r.course_name == c)).length : ℚ))).sum = 1 := by
  rw [filter_sev_course courseCats sevCats fdf c hcc hc, List.map_map]
  have hcnt : ∀ s ∈ sevCats,
      (fdf.filter (fun r => r.course_name == c && r.severity == s)).length =
        ((fdf.filter (fun r => r.course_name == c)).filter
          (fun r => r.severity == s)).length := by
    intro s _
    rw [List.filter_filter]
    congr 1
    exact List.filter_congr (fun r _ => by rw [Bool.and_comm])
  have hmapeq : sevCats.map
      ((fun e : (String × String) × Nat => (e.2 : ℚ) /
        ((fdf.filter (fun r => r.course_name == c)).length : ℚ)) ∘ fun s =>
        ((c, s), (fdf.filter (fun r => r.course_name == c && r.severity == s)).length)) =
      (sevCats.map (fun s =>
        ((((fdf.filter (fun r => r.course_name == c)).filter
          (fun r => r.severity == s)).length : ℚ)))).map
        (fun x => x / ((fdf.filter (fun r => r.course_name == c)).length : ℚ)) := by
    rw [List.map_map]
    refine List.map_congr_left ?_
    intro s hs
    simp only [Function.comp_apply]
    rw [hcnt s hs]
  rw [hmapeq, list_sum_div]
  have hcast : (sevCats.map (fun s =>
      ((((fdf.filter (fun r => r.course_name == c)).filter
        (fun r => r.severity == s)).length : ℚ)))).sum =
      (((sevCats.map (fun s =>
        ((fdf.filter (fun r => r.course_name == c)).filter
          (fun r => r.severity == s)).length)).sum : Nat) : ℚ) := by
    rw [Nat.cast_list_sum, List.map_map]
    exact (List.map_congr_left (fun s _ => rfl)).symm ▸ rfl
  rw [hcast]
  rw [partition_sum (fun r => r.severity) sevCats
    (fdf.filter (fun r => r.course_name == c)) hsd
    (fun r hr => hcov r (List.mem_filter.mp hr).1)]
  exact div_self (Nat.cast_ne_zero.mpr (Nat.pos_iff_ne_zero.mp hpos))

/-- Witness for C7 (amended) at a concrete one-course table. -/
theorem c7_witness :
    (((sev_course ["Course A"] ["Low"] fdfOneCourse).filter
      (fun e => e.1.1 == "Course A")).map
      (fun e => (e.2 : ℚ) /
        ((fdfOneCourse.filter (fun r => r.course_name == "Course A")).length : ℚ))).sum = 1 :=
  c7_severity_mix ["Course A"] ["Low"] fdfOneCourse "Course A"
    (by decide) (by decide) (by decide) (by decide) (by decide)

theorem mkRawIssue_created (today : Int) (courses : List String) (i s : Nat) :
    (mkRawIssue today courses i s).1.created_at =
      today - 1440 * (((rngNext s).2 % 40 : Nat) : Int) := rfl

/-- The `created_at` of every generated row is midnight of `today` minus a
whole number of days. -/
theorem genRows_created (today : Int) (courses : List String) :
    ∀ (n i s : Nat), ∀ r ∈ genRows today courses i s n,
      ∃ k : Nat, r.created_at = today - 1440 * (k : Int) := by
  intro n
  induction n with
  | zero => intro i s r h; cases h
  | succ m ih =>
    intro i s r h
    rw [genRows] at h
    rcases List.mem_cons.mp h with rfl | h2
    · exact ⟨(rngNext s).2 % 40, mkRawIssue_created today courses i s⟩
    · exact ih (i + 1) (mkRawIssue today courses i s).2 r h2

theorem emod_div_shift (n : Int) (k : Nat) :
    (n - (1440 * (n / 1440) - 1440 * (k : Int))) / 1440 = k := by
  have hm := Int.ediv_add_emod n 1440
  have h1 : n - (1440 * (n / 1440) - 1440 * (k : Int)) = n % 1440 + 1440 * k := by
    omega
  rw [h1, Int.add_mul_ediv_left _ _ (by norm_num : (1440 : Int) ≠ 0)]
  rw [Int.ediv_eq_zero_of_lt (Int.emod_nonneg n (by norm_num))
    (Int.emod_lt_of_pos n (by norm_num))]
  simp

/-- Deriving with two wall clocks of the same calendar day gives the
same row, for rows created a whole number of days before midnight. -/
theorem derive_same_day {n₁ n₂ : Int} (h : n₁ / 1440 = n₂ / 1440)
    (r : RawIssue)
    (hr : ∃ k : Nat, r.created_at = 1440 * (n₁ / 1440) - 1440 * (k : Int)) :
    derive n₁ r = derive n₂ r := by
  obtain ⟨k, hk⟩ := hr
  have e1 : (n₁ - r.created_at) / 1440 = (k : Int) := by
    rw [hk]; exact emod_div_shift n₁ k
  have e2 : (n₂ - r.created_at) / 1440 = (k : Int) := by
    rw [hk, h]; exact emod_div_shift n₂ k
  unfold derive
  rw [e1, e2]

/-- Claim C8, counterexample. The generator reads the wall clock: with the
same seed (42, fixed in the source) and the same row and course counts,
two calls on different calendar days produce different tables, so seed
and counts alone do not determine the output byte-for-byte. -/
theorem c8_counterexample : exampleData 0 3 1 ≠ exampleData 1440 3 1 := by
  decide

/-- Claim C8, amended. With the same seed and the same row and course
counts, two generator calls whose wall-clock times fall on the same
calendar day produce identical tables (the generator is deterministic
up to its hidden wall-clock input). -/
theorem c8_same_day (n₁ n₂ : Int) (nCourses nRows : Nat)
    (h : n₁ / 1440 = n₂ / 1440) :
    exampleData n₁ nCourses nRows = exampleData n₂ nCourses nRows := by
  unfold exampleData
  rw [← h]
  refine List.map_congr_left ?_
  intro r hr
  exact derive_same_day h r
    (genRows_created (1440 * (n₁ / 1440)) _ nRows 0 rngSeed r hr)

/-- Witness for C8 (amended): two calls 100 minutes apart on the same
day. -/
theorem c8_witness :
    (100 : Int) / 1440 = (200 : Int) / 1440
    ∧ exampleData 100 3 2 = exampleData 200 3 2 :=
  ⟨by decide, c8_same_day 100 200 3 2 (by decide)⟩

/-- Shape of a successful load: column names are exactly the
normalized input names (no column is added or removed), and every
column not listed in `parse_dates` passes through with its values
untouched. -/
theorem loadData_ok_shape (t t₁ : RawTable) (h : loadData t = .ok t₁) :
    t₁.cols.map Prod.fst = t.cols.map (fun c => normName c.1)
    ∧ t₁.cols.length = t.cols.length
    ∧ ∀ n vs, (n, vs) ∈ t.cols → n ∉ parseDatesCols →
        (normName n, vs) ∈ t₁.cols := by
  unfold loadData at h
  split at h
  case h_2 => cases h
  case h_1 t1 heq =>
    rw [Except.ok.injEq] at h
    subst h
    unfold readCsv at heq
    split at heq
    case isFalse => cases heq
    case isTrue hcond =>
      rw [Except.ok.injEq] at heq
      subst heq
      refine ⟨?_, by simp, ?_⟩
      · rw [List.map_map, List.map_map]
        refine List.map_congr_left ?_
        intro c _
        by_cases hc : c.1 ∈ parseDatesCols <;> simp [hc]
      · intro n vs hmem hnot
        have h1 := List.mem_map_of_mem (fun c : String × List Cell =>
          if parseDatesCols.contains c.1 then (c.1, parseDatesColumn c.2)
          else c) hmem
        rw [show (fun c : String × List Cell =>
            if parseDatesCols.contains c.1 then (c.1, parseDatesColumn c.2)
            else c) (n, vs) = (n, vs) by simp [hnot]] at h1
        exact List.mem_map_of_mem
          (fun c : String × List Cell => (normName c.1, c.2)) h1

/-- Claim C3, exhibit of the code behaviour. `load_data` only parses
dates, normalizes column names and tags categories: the output columns
are exactly the normalized input columns, and every non-date column
keeps its values.  In particular an upload lacking `sla_days` is
returned without any `sla_days` column — no severity-based derivation
happens for real uploads, although the in-app data dictionary itself
promises `sla_days` is "derived from severity" when omitted. -/
theorem c3_no_sla_derivation (t t₁ : RawTable) (h : loadData t = .ok t₁) :
    t₁.cols.map Prod.fst = t.cols.map (fun c => normName c.1)
    ∧ ∀ n vs, (n, vs) ∈ t.cols → n ∉ parseDatesCols →
        (normName n, vs) ∈ t₁.cols :=
  ⟨(loadData_ok_shape t t₁ h).1, (loadData_ok_shape t t₁ h).2.2⟩

/-- Witness for C3: a complete upload without `sla_days` loads into a
table that still has no `sla_days` column. -/
theorem c3_witness :
    loadData uploadMissingSla = .ok uploadMissingSlaLoaded
    ∧ (uploadMissingSlaLoaded.cols.map Prod.fst =
        uploadMissingSla.cols.map (fun c => normName c.1)
      ∧ ∀ n vs, (n, vs) ∈ uploadMissingSla.cols → n ∉ parseDatesCols →
          (normName n, vs) ∈ uploadMissingSlaLoaded.cols)
    ∧ "sla_days" ∉ uploadMissingSlaLoaded.cols.map Prod.fst :=
  ⟨by rfl, c3_no_sla_derivation uploadMissingSla uploadMissingSlaLoaded (by rfl),
    by decide⟩

/-- Claim C4, counterexample. An upload missing the required
`course_name` column and containing an unparseable `created_at` value
loads successfully: no `SchemaError`, no `ParseError`, no abort — the
full two-row table comes back, the bad timestamp column simply left as
strings. -/
theorem c4_counterexample :
    (loadData uploadMissingCourse).toOption.isSome = true
    ∧ (loadData uploadMissingCourse).toOption.map (fun t => t.cols.map Prod.fst) =
        some ["issue_id", "unit", "item_id", "item_type", "status", "severity",
              "reporter", "assignee", "created_at", "updated_at"]
    ∧ (loadData uploadMissingCourse).toOption.bind
        (fun t => t.cols.lookup "created_at") =
        some [.str "not-a-date", .str "2024-01-05"]
    ∧ "course_name" ∉
        ((loadData uploadMissingCourse).toOption.map
          (fun t => t.cols.map Prod.fst)).getD [] := by
  decide

/-- Claim C4, amended. Loading performs no schema validation and raises
no parse error for unparseable values: it aborts only when a
`parse_dates` column name (`created_at`/`updated_at`) is absent from
the raw header (`pandas` raises a `ValueError` then); in every other
case it returns the whole table — same number of columns, names
normalized — with unparseable timestamp columns left as strings and
missing required columns undetected until later column accesses. -/
theorem c4_load_never_validates (t : RawTable) :
    ((loadData t).toOption.isSome = true ↔
      (parseDatesCols.all (fun n => (t.cols.lookup n).isSome)) = true)
    ∧ ∀ t₁, loadData t = .ok t₁ →
        t₁.cols.length = t.cols.length
        ∧ t₁.cols.map Prod.fst = t.cols.map (fun c => normName c.1) := by
  constructor
  · by_cases hc : (parseDatesCols.all (fun n => (t.cols.lookup n).isSome)) = true <;>
      simp [loadData, readCsv, hc, Except.toOption]
  · intro t₁ h
    exact ⟨(loadData_ok_shape t t₁ h).2.1, (loadData_ok_shape t t₁ h).1⟩

/-- Witness for C4 (amended) at the malformed upload. -/
theorem c4_witness :
    loadData uploadMissingCourse = .ok uploadMissingCourseLoaded
    ∧ uploadMissingCourseLoaded.cols.length = uploadMissingCourse.cols.length
    ∧ uploadMissingCourseLoaded.cols.map Prod.fst =
        uploadMissingCourse.cols.map (fun c => normName c.1) :=
  ⟨by rfl,
    (c4_load_never_validates uploadMissingCourse).2 uploadMissingCourseLoaded (by rfl)⟩

/-- Claim C9, counterexample. A complete upload without `sla_days` loads
successfully, but the SLA aggregation then fails with a `KeyError` on
the never-derived `sla_breached` column — so success of the load does
not make the aggregations safe. -/
theorem c9_counterexample :
    (loadData uploadMissingSla).toOption.isSome = true
    ∧ (loadData uploadMissingSla).bind slaBreachesAgg =
        .error "KeyError: sla_breached" :=
  ⟨by decide, by rfl⟩

/-- Claim C9, amended. Over tables that do carry the derived columns (any
generator-path table), filtering and the aggregations are total and an
empty filter result is a valid input to every one of them: on the
empty table the filters return the empty table, the status and
age-bucket distributions return all their categories with count 0, the
KPI counts are 0, the per-severity SLA rate is `NaN` (`none`) for each
severity group, the daily-creation series is empty, the severity-mix
sizes are all 0; and the raw SLA aggregation succeeds on any table in
which its two columns exist. -/
theorem c9_empty_results_are_valid :
    (∀ f : Filters, applyFilters f [] = [])
    ∧ (∀ q : String, textSearch q [] = [])
    ∧ status_counts statusOrder [] = statusOrder.map (fun c => (c, 0))
    ∧ age_dist [] = ageLabels.map (fun l => (l, 0))
    ∧ open_issues [] = 0
    ∧ verifiedCount [] = 0
    ∧ closedCount [] = 0
    ∧ critical_open [] = 0
    ∧ slaBreachCount [] = 0
    ∧ sla_by_sev severities [] = severities.map (fun s => (s, none))
    ∧ created_daily [] = []
    ∧ (∀ courseCats sevCats : List String,
        ∀ e ∈ sev_course courseCats sevCats [], e.2 = 0)
    ∧ (∀ t : RawTable, (t.cols.lookup "sla_breached").isSome = true →
        (t.cols.lookup "status").isSome = true →
        (slaBreachesAgg t).toOption.isSome = true) := by
  refine ⟨?_, ?_, by rfl, by rfl, by rfl, by rfl, by rfl, by rfl, by rfl, by rfl,
    by rfl, ?_, ?_⟩
  · intro f
    simp [applyFilters, condFilter]
  · intro q
    unfold textSearch
    by_cases h : q = "" <;> simp [h]
  · intro courseCats sevCats e he
    obtain ⟨blk, hblk, hin⟩ := List.mem_flatten.mp he
    obtain ⟨c2, _, rfl⟩ := List.mem_map.mp hblk
    obtain ⟨s, _, rfl⟩ := List.mem_map.mp hin
    rfl
  · intro t h1 h2
    obtain ⟨v1, hv1⟩ := Option.isSome_iff_exists.mp h1
    obtain ⟨v2, hv2⟩ := Option.isSome_iff_exists.mp h2
    simp [slaBreachesAgg, getCol, hv1, hv2, Except.toOption]

/-- Witness for C9 (amended): the empty filter on the empty table and
the SLA aggregate on a table that has its columns. -/
theorem c9_witness :
    applyFilters noFilters [] = ([] : List Issue)
    ∧ (slaBreachesAgg tinyDerivedTable).toOption.isSome = true :=
  ⟨c9_empty_results_are_valid.1 noFilters,
    c9_empty_results_are_valid.2.2.2.2.2.2.2.2.2.2.2.2 tinyDerivedTable
      (by decide) (by decide)⟩

end QA
